import Mathlib

/-!
Shallow embedding of the SIH-Team02-Proto trip-logging application.

Conventions of the embedding:
* Network interactions are made explicit: every handler takes the outcome of
  the upstream fetch as an argument (a `FetchResult`), and reports whether a
  network call would have been issued / what document a PATCH would have sent.
* JavaScript numbers that only flow through string interpolation or
  comparisons are modelled as `Int`; the `createdAt` ISO timestamp is
  modelled by its epoch value, i.e. the result of `new Date(s).getTime()`.
* JSON bodies are modelled by concrete Lean structures; the two observed
  response shapes of the document store are the constructors of
  `StoreResponse`.
-/

/-- Outcome of a `fetch` call as observed by the handler:
`ok` means the response had a success status and its body parsed to `α`;
`httpError` means the response arrived with a non-success status;
`networkError` means the `fetch` promise itself rejected;
`parseError` means the status was a success but `response.json()` threw. -/
inductive FetchResult (α : Type) where
  | ok (body : α)
  | httpError
  | networkError
  | parseError
deriving DecidableEq, Repr

/-- A fetch outcome counts as failed when it is anything but a parsed
success body: non-success status, rejected fetch, or json() failure. -/
def FetchResult.failed {α : Type} : FetchResult α → Bool
  | .ok _ => false
  | _ => true

namespace Geocoding

/-- One candidate of the Nominatim search response
(src/utils/geocoding.ts, `GeocodingResult`). -/
structure GeocodingResult where
  place_id : String
  display_name : String
  lat : String
  lon : String
  type_ : String
  importance : Int
deriving DecidableEq, Repr

/-- JavaScript `String.prototype.trim`: removes leading and trailing
whitespace characters. -/
def jsTrim (s : String) : String :=
  String.mk (((s.data.dropWhile Char.isWhitespace).reverse.dropWhile
    Char.isWhitespace).reverse)

/-- Function `searchLocations` of src/utils/geocoding.ts.  Returns the result list
together with a flag telling whether a network request was issued.
The guard `if (!query || query.trim().length < 3) return []` returns before
any `fetch`; afterwards a non-ok status throws and the catch returns `[]`,
as does a rejected fetch or a json() failure. -/
def searchLocations (query : String) (net : FetchResult (List GeocodingResult)) :
    List GeocodingResult × Bool :=
  if query = "" ∨ (jsTrim query).length < 3 then
    ([], false)
  else
    match net with
    | .ok data => (data, true)
    | _ => ([], true)

/-- Rendering of a JavaScript template literal interpolating two numbers,
as in the fallback string of `reverseGeocode`. -/
def coordString (lat lng : Int) : String :=
  toString lat ++ ", " ++ toString lng

/-- Function `reverseGeocode` of src/utils/geocoding.ts.  On a success response the
code returns `data.display_name || fallback` — the fallback is also taken
when `display_name` is absent or the empty string (both falsy). -/
def reverseGeocode (lat lng : Int) (net : FetchResult (Option String)) : String :=
  match net with
  | .ok displayName =>
    match displayName with
    | some s => if s = "" then coordString lat lng else s
    | none => coordString lat lng
  | _ => coordString lat lng

end Geocoding

/-- A traveler entry `{id, name}` (src/app/api/trips/route.ts, `TripData`). -/
structure Traveler where
  id : String
  name : String
deriving DecidableEq, Repr

/-- Optional `{lat, lng}` pair (src/app/api/trips/route.ts). -/
structure LocationCoords where
  lat : Int
  lng : Int
deriving DecidableEq, Repr

/-- Optional weather snapshot stored on a trip (src/app/api/trips/route.ts). -/
structure WeatherSnapshot where
  temperature : Int
  temperatureUnit : String
  windSpeed : Int
  windSpeedUnit : String
  time : String
deriving DecidableEq, Repr

/-- The `TripData` record of src/app/api/trips/route.ts.  `createdAt` is an
ISO timestamp string in the source; it is modelled here by its epoch value
(the result of `new Date(createdAt).getTime()`), which is the only way the
application ever interprets it (the listing sort in src/app/page.tsx). -/
structure TripData where
  id : String
  tripNumber : String
  origin : String
  destination : String
  modeOfTransport : String
  departure : String
  arrival : String
  travelers : List Traveler
  notes : String
  locationCoords : Option LocationCoords
  weatherData : Option WeatherSnapshot
  createdAt : Int
deriving DecidableEq, Repr

/-- The two JSON shapes the document store has been observed to return,
plus a shape with neither field.  `wrapped` is `{file_data:{trips:[...]}}`,
`bare` is `{trips:[...]}`.  (A success body with neither field falls through
both guards of the handlers.) -/
inductive StoreResponse where
  | wrapped (trips : List TripData)
  | bare (trips : List TripData)
  | other
deriving DecidableEq, Repr

/-- The envelope each handler PATCHes back to the store
(the `dataToSend` object of the POST handler and the inline bodies of the
PUT and DELETE handlers in src/app/api/trips/route.ts). -/
structure SiloDocument where
  file_name : String
  trips : List TripData
  region_name : String
  is_public : Bool
deriving DecidableEq, Repr

/-- Builds the fixed PATCH envelope around a trips array. -/
def envelope (trips : List TripData) : SiloDocument :=
  { file_name := "trips_data", trips := trips, region_name := "api", is_public := false }

/-- The shape-normalization branching repeated in the GET, PUT and DELETE
handlers of src/app/api/trips/route.ts:
`if (responseData.file_data?.trips) ... else if (responseData.trips) ... else []`. -/
def extractTrips : StoreResponse → List TripData
  | .wrapped trips => trips
  | .bare trips => trips
  | .other => []

/-- Result of a trips-route handler: the HTTP status of the response and,
when a PATCH request was issued to the store, the document it carried
(`none` means no PATCH request was issued at all). -/
structure RouteResult where
  status : Nat
  patched : Option SiloDocument
deriving DecidableEq, Repr

namespace TripsRoute

/-- The GET handler of src/app/api/trips/route.ts as seen by its caller:
`ok trips` is the 200 response carrying the normalized trips array,
`error` is the 500 response with an error body (missing configuration,
non-ok upstream status, rejected fetch, or a json() failure — all of which
reach the catch block). -/
inductive ListResult where
  | ok (trips : List TripData)
  | error
deriving DecidableEq, Repr

/-- The trips a caller of the list operation obtains: the normalized array
on success, and no trips at all (the empty sequence) on the error response. -/
def ListResult.trips : ListResult → List TripData
  | .ok trips => trips
  | .error => []

/-- Handler `GET` of src/app/api/trips/route.ts.  `envOk` is whether both
environment variables are present. -/
def GET (envOk : Bool) (net : FetchResult StoreResponse) : ListResult :=
  if !envOk then .error
  else
    match net with
    | .ok resp => .ok (extractTrips resp)
    | _ => .error

/-- Handler `POST` of src/app/api/trips/route.ts.  `getRes` is the outcome of the
initial GET of the document; `patchOk` is whether the PATCH, if issued,
responds with a success status.  A non-ok GET status skips the
`if (getResponse.ok)` block, a json() failure inside it hits the inner
catch: both leave the trips array empty.  Only a rejected GET fetch aborts
the handler before the PATCH. -/
def POST (envOk : Bool) (tripData : TripData) (getRes : FetchResult StoreResponse)
    (patchOk : Bool) : RouteResult :=
  if !envOk then ⟨500, none⟩
  else
    match getRes with
    | .networkError => ⟨500, none⟩
    | .ok resp =>
      let newTrips := extractTrips resp ++ [tripData]
      if patchOk then ⟨200, some (envelope newTrips)⟩ else ⟨500, some (envelope newTrips)⟩
    | _ =>
      let newTrips := ([] : List TripData) ++ [tripData]
      if patchOk then ⟨200, some (envelope newTrips)⟩ else ⟨500, some (envelope newTrips)⟩

/-- Handler `PUT` of src/app/api/trips/route.ts.  Any GET failure throws
(`Failed to fetch existing trips`) and lands in the catch with a 500;
`findIndex` scans for the first trip whose id equals the id of the request trip;
index `-1` yields the 404 response before any PATCH. -/
def PUT (envOk : Bool) (updatedTrip : TripData) (getRes : FetchResult StoreResponse)
    (patchOk : Bool) : RouteResult :=
  if !envOk then ⟨500, none⟩
  else
    match getRes with
    | .ok resp =>
      let trips := extractTrips resp
      match trips.findIdx? (fun trip => trip.id == updatedTrip.id) with
      | none => ⟨404, none⟩
      | some tripIndex =>
        let newTrips := trips.set tripIndex updatedTrip
        if patchOk then ⟨200, some (envelope newTrips)⟩ else ⟨500, some (envelope newTrips)⟩
    | _ => ⟨500, none⟩

/-- Handler `DELETE` of src/app/api/trips/route.ts.  `tripId` is the `id` query
parameter (`none` when absent); the guard `if (!tripId)` also catches the
empty string.  The filter keeps trips whose id differs from the target; if
the length is unchanged the 404 response is returned before any PATCH. -/
def DELETE (envOk : Bool) (tripId : Option String) (getRes : FetchResult StoreResponse)
    (patchOk : Bool) : RouteResult :=
  if !envOk then ⟨500, none⟩
  else
    match tripId with
    | none => ⟨400, none⟩
    | some tid =>
      if tid = "" then ⟨400, none⟩
      else
        match getRes with
        | .ok resp =>
          let trips := extractTrips resp
          let remaining := trips.filter (fun trip => trip.id != tid)
          if remaining.length = trips.length then ⟨404, none⟩
          else if patchOk then ⟨200, some (envelope remaining)⟩
          else ⟨500, some (envelope remaining)⟩
        | _ => ⟨500, none⟩

end TripsRoute

namespace CountRoute

/-- Handler `GET` of src/app/api/trips/count/route.ts.  The body is always emitted
with the default success status — the catch block also answers
`{count: 0, nextTripNumber: 1}` as a plain 200.  The success path reads
`data.file_data?.trips?.length || 0`, so only the wrapped shape contributes
a count; the bare shape and any failure fall back to zero. -/
def GET (net : FetchResult StoreResponse) : Nat × Nat :=
  match net with
  | .ok (.wrapped trips) => (trips.length, trips.length + 1)
  | .ok _ => (0, 0 + 1)
  | _ => (0, 0 + 1)

/-- Status of the count response: both the success path and the catch
return a plain `NextResponse.json` body, i.e. HTTP 200. -/
def status (_net : FetchResult StoreResponse) : Nat := 200

end CountRoute

namespace WeatherRoute

/-- The upstream forecast response used by the weather route
(src/unnamed/part_001, `WeatherData`), with numbers modelled as `Int`. -/
structure UpstreamWeather where
  latitude : Int
  longitude : Int
  temperature_2m : Int
  wind_speed_10m : Int
  currentTime : String
  temperatureUnit2m : String
  windSpeedUnit10m : String
deriving DecidableEq, Repr

/-- The flattened record the weather route returns on success
(src/unnamed/part_001, the `NextResponse.json({...})` object). -/
structure FlatWeather where
  temperature : Int
  temperatureUnit : String
  windSpeed : Int
  windSpeedUnit : String
  time : String
  coordLat : Int
  coordLng : Int
deriving DecidableEq, Repr

/-- The field-by-field flattening of the upstream body performed by the
success branch of the weather route. -/
def flatten (w : UpstreamWeather) : FlatWeather :=
  { temperature := w.temperature_2m
    temperatureUnit := w.temperatureUnit2m
    windSpeed := w.wind_speed_10m
    windSpeedUnit := w.windSpeedUnit10m
    time := w.currentTime
    coordLat := w.latitude
    coordLng := w.longitude }

/-- JavaScript falsiness of a nullable string query parameter:
`searchParams.get` returns `null` when the parameter is absent, and the
empty string is also falsy under `if (!lat || !lng)`. -/
def falsy : Option String → Bool
  | none => true
  | some s => s = ""

/-- Result of the weather route: HTTP status, optional flattened body, and
whether the upstream forecast endpoint was called. -/
structure WeatherResult where
  status : Nat
  body : Option FlatWeather
  networkCalled : Bool
deriving DecidableEq, Repr

/-- Handler `GET` of src/unnamed/part_001: the validation guard answers 400 before
the `fetch`; a non-ok upstream status, rejected fetch or json() failure all
reach the catch and answer 500. -/
def GET (lat lng : Option String) (net : FetchResult UpstreamWeather) : WeatherResult :=
  if falsy lat || falsy lng then ⟨400, none, false⟩
  else
    match net with
    | .ok w => ⟨200, some (flatten w), true⟩
    | _ => ⟨500, none, true⟩

end WeatherRoute

namespace HomePage

/-- The comparator-induced order of the listing sort in src/app/page.tsx:
`(a, b) => new Date(b.createdAt).getTime() - new Date(a.createdAt).getTime()`
puts the larger `createdAt` first. -/
def descBy (a b : TripData) : Prop := b.createdAt ≤ a.createdAt

instance : DecidableRel descBy := fun a b =>
  inferInstanceAs (Decidable (b.createdAt ≤ a.createdAt))

/-- Insertion into a list kept in descending `createdAt` order. -/
def insertDesc (t : TripData) : List TripData → List TripData
  | [] => [t]
  | h :: rest =>
    if h.createdAt ≤ t.createdAt then t :: h :: rest
    else h :: insertDesc t rest

/-- The stable sort `tripsData.sort((a, b) => ...)` of `fetchTrips` in
src/app/page.tsx, modelled as insertion sort by `createdAt` descending
(ECMAScript guarantees the result of `Array.prototype.sort` with a
consistent comparator is sorted with respect to it). -/
def sortByCreatedAtDesc : List TripData → List TripData
  | [] => []
  | h :: rest => insertDesc h (sortByCreatedAtDesc rest)

/-- Function `fetchTrips` of src/app/page.tsx: on a success response the trips state
is set to the sorted array; on a non-ok response the catch sets an error
and no trips are produced. -/
def fetchTrips (res : TripsRoute.ListResult) : Option (List TripData) :=
  match res with
  | .ok trips => some (sortByCreatedAtDesc trips)
  | .error => none

end HomePage



/-! ## Helper lemmas -/

lemma string_length_pos_of_ne_empty (s : String) (h : s ≠ "") : 0 < s.length := by
  cases s with
  | mk data =>
    cases data with
    | nil => exact absurd rfl h
    | cons c cs => simp [String.length]

lemma coordString_length_pos (lat lng : Int) :
    0 < (Geocoding.coordString lat lng).length := by
  have h := String.length_append (toString lat ++ ", ") (toString lng)
  have h2 := String.length_append (toString lat) ", "
  unfold Geocoding.coordString
  rw [h, h2]
  have : (", " : String).length = 2 := rfl
  omega

/-! ## C6: short geocoding queries -/

/-- C6: for every query string whose trimmed length is less than 3
(the empty string included), `searchLocations` returns the empty sequence
and issues no network call. -/
theorem searchLocations_short_query (query : String)
    (h : (Geocoding.jsTrim query).length < 3)
    (net : FetchResult (List Geocoding.GeocodingResult)) :
    Geocoding.searchLocations query net = ([], false) := by
  unfold Geocoding.searchLocations
  rw [if_pos (Or.inr h)]

theorem searchLocations_short_query_witness :
    Geocoding.searchLocations "ab" FetchResult.httpError = ([], false) :=
  searchLocations_short_query "ab" (by decide) FetchResult.httpError

/-! ## C7: reverse geocoding fallback -/

/-- C7: on any provider failure `reverseGeocode` returns the literal
coordinate string for the given coordinates, and on every outcome the
returned display string is non-empty. -/
theorem reverseGeocode_fallback (lat lng : Int) :
    (∀ net : FetchResult (Option String), net.failed = true →
        Geocoding.reverseGeocode lat lng net = Geocoding.coordString lat lng) ∧
    ∀ net : FetchResult (Option String),
        0 < (Geocoding.reverseGeocode lat lng net).length := by
  constructor
  · intro net hfail
    cases net with
    | ok body => simp [FetchResult.failed] at hfail
    | httpError => rfl
    | networkError => rfl
    | parseError => rfl
  · intro net
    cases net with
    | ok body =>
      cases body with
      | none => exact coordString_length_pos lat lng
      | some s =>
        by_cases hs : s = ""
        · simp [Geocoding.reverseGeocode, hs]
          exact coordString_length_pos lat lng
        · simp [Geocoding.reverseGeocode, hs]
          exact string_length_pos_of_ne_empty s hs
    | httpError => exact coordString_length_pos lat lng
    | networkError => exact coordString_length_pos lat lng
    | parseError => exact coordString_length_pos lat lng

theorem reverseGeocode_fallback_witness :
    Geocoding.reverseGeocode 12 77 FetchResult.networkError = Geocoding.coordString 12 77 ∧
    0 < (Geocoding.reverseGeocode 12 77 FetchResult.networkError).length :=
  ⟨(reverseGeocode_fallback 12 77).1 FetchResult.networkError rfl,
   (reverseGeocode_fallback 12 77).2 FetchResult.networkError⟩

/-! ## C10: trip count route -/

/-- C10: the count route always answers `nextTripNumber = count + 1` with a
success status, and answers `{count: 0, nextTripNumber: 1}` on every fetch
failure and on every success body that lacks the `file_data.trips`
wrapping (the bare `{trips:[...]}` shape included). -/
theorem countRoute_spec :
    (∀ net : FetchResult StoreResponse,
        (CountRoute.GET net).2 = (CountRoute.GET net).1 + 1 ∧
        CountRoute.status net = 200) ∧
    CountRoute.GET .httpError = (0, 1) ∧
    CountRoute.GET .networkError = (0, 1) ∧
    CountRoute.GET .parseError = (0, 1) ∧
    (∀ T : List TripData, CountRoute.GET (.ok (.bare T)) = (0, 1)) ∧
    CountRoute.GET (.ok .other) = (0, 1) := by
  refine ⟨fun net => ⟨?_, rfl⟩, rfl, rfl, rfl, fun _ => rfl, rfl⟩
  cases net with
  | ok resp => cases resp <;> rfl
  | httpError => rfl
  | networkError => rfl
  | parseError => rfl

/-! ## C5: list operation -/

/-- C5: the list operation accepts both store response shapes and returns
the same ordered trip sequence for both; on a non-success status, a
rejected fetch or a json() failure it answers the error response, which
carries no trips (the caller obtains the empty sequence). -/
theorem tripsList_spec :
    (∀ T : List TripData,
        TripsRoute.GET true (.ok (.wrapped T)) = .ok T ∧
        TripsRoute.GET true (.ok (.bare T)) = .ok T) ∧
    (TripsRoute.GET true .httpError = .error ∧
      (TripsRoute.GET true .httpError).trips = []) ∧
    (TripsRoute.GET true .networkError = .error ∧
      (TripsRoute.GET true .networkError).trips = []) ∧
    (TripsRoute.GET true .parseError = .error ∧
      (TripsRoute.GET true .parseError).trips = []) :=
  ⟨fun _ => ⟨rfl, rfl⟩, ⟨rfl, rfl⟩, ⟨rfl, rfl⟩, ⟨rfl, rfl⟩⟩

/-! ## C8: weather route -/

/-- C8: a missing or falsy latitude or longitude parameter yields the 400
validation response with no network call; with both parameters present and
non-empty the forecast endpoint is called, and on a success body the route
answers the flattened record. -/
theorem weatherRoute_spec :
    (∀ (lat lng : Option String) (net : FetchResult WeatherRoute.UpstreamWeather),
        (WeatherRoute.falsy lat || WeatherRoute.falsy lng) = true →
        WeatherRoute.GET lat lng net = ⟨400, none, false⟩) ∧
    (∀ (lat lng : Option String) (net : FetchResult WeatherRoute.UpstreamWeather),
        (WeatherRoute.falsy lat || WeatherRoute.falsy lng) = false →
        (WeatherRoute.GET lat lng net).networkCalled = true ∧
        ∀ w, net = .ok w →
          WeatherRoute.GET lat lng net = ⟨200, some (WeatherRoute.flatten w), true⟩) := by
  constructor
  · intro lat lng net hfalsy
    unfold WeatherRoute.GET
    rw [if_pos hfalsy]
  · intro lat lng net hok
    unfold WeatherRoute.GET
    rw [if_neg (by simp [hok])]
    constructor
    · cases net <;> rfl
    · intro w hw
      subst hw
      rfl

theorem weatherRoute_spec_witness :
    WeatherRoute.GET none (some "77.6") FetchResult.httpError = ⟨400, none, false⟩ ∧
    WeatherRoute.GET (some "12.9") (some "77.6")
        (.ok ⟨12, 77, 21, 5, "2026-01-01T00:00", "C", "km/h"⟩) =
      ⟨200, some (WeatherRoute.flatten ⟨12, 77, 21, 5, "2026-01-01T00:00", "C", "km/h"⟩),
        true⟩ :=
  ⟨weatherRoute_spec.1 none (some "77.6") FetchResult.httpError rfl,
   (weatherRoute_spec.2 (some "12.9") (some "77.6")
      (.ok ⟨12, 77, 21, 5, "2026-01-01T00:00", "C", "km/h"⟩) rfl).2
      ⟨12, 77, 21, 5, "2026-01-01T00:00", "C", "km/h"⟩ rfl⟩

/-! ## Helper lemmas for the update and delete handlers -/

/-- A concrete trip used to instantiate hypotheses at closed inputs. -/
def sampleTrip (tid : String) (ts : Int) : TripData :=
  { id := tid, tripNumber := "1", origin := "Chennai", destination := "Delhi",
    modeOfTransport := "Car", departure := "", arrival := "",
    travelers := [], notes := "", locationCoords := none,
    weatherData := none, createdAt := ts }

lemma findIdx?_id_eq_none (T : List TripData) (tid : String)
    (h : ∀ t ∈ T, t.id ≠ tid) :
    T.findIdx? (fun trip => trip.id == tid) = none :=
  List.findIdx?_eq_none_iff.mpr (fun t ht => beq_eq_false_iff_ne.mpr (h t ht))

lemma filter_ne_id_eq_self (T : List TripData) (tid : String)
    (h : ∀ t ∈ T, t.id ≠ tid) :
    T.filter (fun trip => trip.id != tid) = T :=
  List.filter_eq_self.mpr (fun t ht => bne_iff_ne.mpr (h t ht))

lemma filter_ne_id_length_succ (T : List TripData) (tid : String)
    (hnd : (T.map TripData.id).Nodup) (x : TripData) (hx : x ∈ T)
    (hxid : x.id = tid) :
    (T.filter (fun trip => trip.id != tid)).length + 1 = T.length := by
  induction T with
  | nil => cases hx
  | cons hd rest ih =>
    rw [List.map_cons, List.nodup_cons] at hnd
    by_cases hhd : hd.id = tid
    · have hrest : ∀ t ∈ rest, t.id ≠ tid := by
        intro t ht htid
        apply hnd.1
        rw [hhd, ← htid]
        exact List.mem_map_of_mem TripData.id ht
      rw [List.filter_cons_of_neg (by simp [hhd]),
        filter_ne_id_eq_self rest tid hrest, List.length_cons]
    · have hxrest : x ∈ rest := by
        cases List.mem_cons.mp hx with
        | inl heq => exact absurd (heq ▸ hxid) hhd
        | inr hmem => exact hmem
      rw [List.filter_cons_of_pos (by simp [hhd]), List.length_cons,
        List.length_cons, ih hnd.2 hxrest]

/-! ## C1: update by id -/

/-- C1: for every stored collection and update request, an absent target id
yields the 404 response with no PATCH issued; a present target id makes the
handler replace the first trip at the scanned-for index by the request trip,
PATCH the full document, and keep the collection length unchanged. -/
theorem tripsPut_spec (resp : StoreResponse) (u : TripData) (patchOk : Bool) :
    ((∀ t ∈ extractTrips resp, t.id ≠ u.id) →
        TripsRoute.PUT true u (.ok resp) patchOk = ⟨404, none⟩) ∧
    ((∃ t ∈ extractTrips resp, t.id = u.id) →
        ∃ i, ∃ hi : i < (extractTrips resp).length,
          ((extractTrips resp).get ⟨i, hi⟩).id = u.id ∧
          (∀ j, (hj : j < i) →
            ((extractTrips resp).get ⟨j, Nat.lt_trans hj hi⟩).id ≠ u.id) ∧
          TripsRoute.PUT true u (.ok resp) patchOk =
            ⟨if patchOk then 200 else 500,
              some (envelope ((extractTrips resp).set i u))⟩ ∧
          ((extractTrips resp).set i u).length = (extractTrips resp).length) := by
  constructor
  · intro habsent
    simp [TripsRoute.PUT, findIdx?_id_eq_none (extractTrips resp) u.id habsent]
  · rintro ⟨x, hx, hxid⟩
    have hfound := List.findIdx?_eq_some_of_exists
      (p := fun trip => trip.id == u.id) ⟨x, hx, beq_iff_eq.mpr hxid⟩
    rcases List.findIdx?_eq_some_iff_getElem.mp hfound with ⟨hi, hpi, hbefore⟩
    refine ⟨_, hi, beq_iff_eq.mp hpi, ?_, ?_, List.length_set _ _ _⟩
    · intro j hj heq
      exact hbefore j hj (beq_iff_eq.mpr heq)
    · cases patchOk <;> simp [TripsRoute.PUT, hfound]

theorem tripsPut_spec_witness :
    TripsRoute.PUT true (sampleTrip "b" 1) (.ok (.wrapped [sampleTrip "a" 0])) true =
      ⟨404, none⟩ ∧
    ∃ i, ∃ hi : i < (extractTrips (.wrapped [sampleTrip "a" 0])).length,
      ((extractTrips (.wrapped [sampleTrip "a" 0])).get ⟨i, hi⟩).id =
        (sampleTrip "a" 5).id ∧
      (∀ j, (hj : j < i) →
        ((extractTrips (.wrapped [sampleTrip "a" 0])).get
          ⟨j, Nat.lt_trans hj hi⟩).id ≠ (sampleTrip "a" 5).id) ∧
      TripsRoute.PUT true (sampleTrip "a" 5) (.ok (.wrapped [sampleTrip "a" 0])) true =
        ⟨if true then 200 else 500,
          some (envelope ((extractTrips (.wrapped [sampleTrip "a" 0])).set i
            (sampleTrip "a" 5)))⟩ ∧
      ((extractTrips (.wrapped [sampleTrip "a" 0])).set i (sampleTrip "a" 5)).length =
        (extractTrips (.wrapped [sampleTrip "a" 0])).length :=
  ⟨(tripsPut_spec (.wrapped [sampleTrip "a" 0]) (sampleTrip "b" 1) true).1
      (by decide),
   (tripsPut_spec (.wrapped [sampleTrip "a" 0]) (sampleTrip "a" 5) true).2
      ⟨sampleTrip "a" 0, List.mem_singleton.mpr rfl, rfl⟩⟩

/-! ## C2: delete by id -/

/-- C2 counterexample: the empty target id is caught by the falsy guard
of the handler (`if (!tripId)`) and answered with the 400 response, so even
though no stored trip carries that id, the operation does not report the
not-found condition the claim requires. -/
theorem tripsDelete_emptyId_counterexample :
    (∀ t ∈ extractTrips (.wrapped [sampleTrip "a" 0]), t.id ≠ "") ∧
    ((StoreResponse.wrapped [sampleTrip "a" 0] |> extractTrips).map TripData.id).Nodup ∧
    TripsRoute.DELETE true (some "") (.ok (.wrapped [sampleTrip "a" 0])) true ≠
      ⟨404, none⟩ ∧
    TripsRoute.DELETE true (some "") (.ok (.wrapped [sampleTrip "a" 0])) true =
      ⟨400, none⟩ := by
  refine ⟨?_, ?_, ?_, rfl⟩ <;> decide

/-- C2 (amended to non-empty target ids): for every stored collection with
unique trip ids and every delete request with a non-empty id, an absent id
yields the 404 response with no PATCH issued, and a present id makes the
handler PATCH the filtered collection, which excludes the id and is exactly
one entry shorter. -/
theorem tripsDelete_spec (resp : StoreResponse) (tid : String) (patchOk : Bool)
    (hnd : ((extractTrips resp).map TripData.id).Nodup) (htid : tid ≠ "") :
    ((∀ t ∈ extractTrips resp, t.id ≠ tid) →
        TripsRoute.DELETE true (some tid) (.ok resp) patchOk = ⟨404, none⟩) ∧
    ((∃ t ∈ extractTrips resp, t.id = tid) →
        TripsRoute.DELETE true (some tid) (.ok resp) patchOk =
          ⟨if patchOk then 200 else 500,
            some (envelope ((extractTrips resp).filter (fun trip => trip.id != tid)))⟩ ∧
        (∀ t ∈ (extractTrips resp).filter (fun trip => trip.id != tid), t.id ≠ tid) ∧
        ((extractTrips resp).filter (fun trip => trip.id != tid)).length + 1 =
          (extractTrips resp).length) := by
  constructor
  · intro habsent
    simp [TripsRoute.DELETE, htid,
      filter_ne_id_eq_self (extractTrips resp) tid habsent]
  · rintro ⟨x, hx, hxid⟩
    have hlen := filter_ne_id_length_succ (extractTrips resp) tid hnd x hx hxid
    refine ⟨?_, ?_, hlen⟩
    · have hne : ((extractTrips resp).filter
          (fun trip => trip.id != tid)).length ≠ (extractTrips resp).length := by
        omega
      cases patchOk <;> simp [TripsRoute.DELETE, htid, hne]
    · intro t ht
      exact bne_iff_ne.mp (List.mem_filter.mp ht).2

theorem tripsDelete_spec_witness :
    TripsRoute.DELETE true (some "b") (.ok (.wrapped [sampleTrip "a" 0])) true =
      ⟨404, none⟩ ∧
    (TripsRoute.DELETE true (some "a") (.ok (.wrapped [sampleTrip "a" 0])) true =
      ⟨if true then 200 else 500,
        some (envelope ((extractTrips (.wrapped [sampleTrip "a" 0])).filter
          (fun trip => trip.id != "a")))⟩ ∧
      (∀ t ∈ (extractTrips (.wrapped [sampleTrip "a" 0])).filter
          (fun trip => trip.id != "a"), t.id ≠ "a") ∧
      ((extractTrips (.wrapped [sampleTrip "a" 0])).filter
          (fun trip => trip.id != "a")).length + 1 =
        (extractTrips (.wrapped [sampleTrip "a" 0])).length) :=
  ⟨(tripsDelete_spec (.wrapped [sampleTrip "a" 0]) "b" true (by decide) (by decide)).1
      (by decide),
   (tripsDelete_spec (.wrapped [sampleTrip "a" 0]) "a" true (by decide) (by decide)).2
      ⟨sampleTrip "a" 0, List.mem_singleton.mpr rfl, rfl⟩⟩

/-! ## C3: create failure condition -/

/-- C3 counterexample: with a non-success status on the initial GET and a
successful PATCH, the create operation still answers the success response
(the handler treats the failed GET as an empty collection and appends to
it), refuting the claim that a non-success GET makes the create fail. -/
theorem tripsPost_getFailure_counterexample :
    (TripsRoute.POST true (sampleTrip "a" 0) .httpError true).status = 200 ∧
    (TripsRoute.POST true (sampleTrip "a" 0) .httpError true).status ≠ 500 ∧
    (TripsRoute.POST true (sampleTrip "a" 0) .httpError true).patched =
      some (envelope [sampleTrip "a" 0]) := by
  refine ⟨rfl, ?_, rfl⟩
  decide

/-- C3 (amended): the create operation fails with a save error exactly when
the PATCH responds non-success or the initial GET fetch itself rejects; a
non-success GET status is absorbed as the empty-collection fallback, and
the operation succeeds whenever the PATCH succeeds. -/
theorem tripsPost_failure_spec (u : TripData) (getRes : FetchResult StoreResponse)
    (patchOk : Bool) :
    ((TripsRoute.POST true u getRes patchOk).status = 500 ↔
      (getRes = .networkError ∨ patchOk = false)) ∧
    ((TripsRoute.POST true u getRes patchOk).status = 200 ↔
      (getRes ≠ .networkError ∧ patchOk = true)) := by
  cases getRes <;> cases patchOk <;> simp [TripsRoute.POST]

/-! ## C4: create appends under the fixed envelope -/

/-- C4: the create operation appends the request trip to the fetched
collection (the empty collection when the GET failed with a non-success
status or an unparseable body) and PATCHes the full document under the
fixed envelope; the written collection is one entry longer than the old
one, and the envelope constants are `trips_data` / `api` / `false`. -/
theorem tripsPost_append_spec (u : TripData) (patchOk : Bool) :
    (∀ resp : StoreResponse,
        TripsRoute.POST true u (.ok resp) patchOk =
          ⟨if patchOk then 200 else 500, some (envelope (extractTrips resp ++ [u]))⟩ ∧
        (extractTrips resp ++ [u]).length = (extractTrips resp).length + 1) ∧
    TripsRoute.POST true u .httpError patchOk =
      ⟨if patchOk then 200 else 500, some (envelope ([] ++ [u]))⟩ ∧
    TripsRoute.POST true u .parseError patchOk =
      ⟨if patchOk then 200 else 500, some (envelope ([] ++ [u]))⟩ ∧
    ∀ trips : List TripData,
      (envelope trips).file_name = "trips_data" ∧
      (envelope trips).region_name = "api" ∧
      (envelope trips).is_public = false ∧
      (envelope trips).trips = trips := by
  refine ⟨fun resp => ⟨?_, by simp⟩, ?_, ?_, fun trips => ⟨rfl, rfl, rfl, rfl⟩⟩ <;>
    cases patchOk <;> rfl

/-! ## C9: listing order -/

lemma insertDesc_perm (t : TripData) (l : List TripData) :
    List.Perm (HomePage.insertDesc t l) (t :: l) := by
  induction l with
  | nil => exact List.Perm.refl [t]
  | cons hd rest ih =>
    unfold HomePage.insertDesc
    by_cases hc : hd.createdAt ≤ t.createdAt
    · rw [if_pos hc]
    · rw [if_neg hc]
      exact List.Perm.trans (List.Perm.cons hd ih) (List.Perm.swap t hd rest)

lemma mem_insertDesc {t x : TripData} {l : List TripData}
    (hx : x ∈ HomePage.insertDesc t l) : x = t ∨ x ∈ l := by
  have := (insertDesc_perm t l).mem_iff.mp hx
  simpa using this

lemma insertDesc_pairwise (t : TripData) (l : List TripData)
    (h : l.Pairwise HomePage.descBy) :
    (HomePage.insertDesc t l).Pairwise HomePage.descBy := by
  induction l with
  | nil => simp [HomePage.insertDesc]
  | cons hd rest ih =>
    rw [List.pairwise_cons] at h
    unfold HomePage.insertDesc
    by_cases hc : hd.createdAt ≤ t.createdAt
    · rw [if_pos hc, List.pairwise_cons]
      refine ⟨?_, List.pairwise_cons.mpr h⟩
      intro x hx
      cases List.mem_cons.mp hx with
      | inl heq => exact heq ▸ hc
      | inr hmem => exact le_trans (h.1 x hmem) hc
    · rw [if_neg hc, List.pairwise_cons]
      refine ⟨?_, ih h.2⟩
      intro x hx
      cases mem_insertDesc hx with
      | inl heq => exact heq ▸ le_of_lt (lt_of_not_le hc)
      | inr hmem => exact h.1 x hmem

lemma sortByCreatedAtDesc_perm (l : List TripData) :
    List.Perm (HomePage.sortByCreatedAtDesc l) l := by
  induction l with
  | nil => exact List.Perm.refl []
  | cons hd rest ih =>
    exact List.Perm.trans (insertDesc_perm hd (HomePage.sortByCreatedAtDesc rest))
      (List.Perm.cons hd ih)

lemma sortByCreatedAtDesc_pairwise (l : List TripData) :
    (HomePage.sortByCreatedAtDesc l).Pairwise HomePage.descBy := by
  induction l with
  | nil => simp [HomePage.sortByCreatedAtDesc]
  | cons hd rest ih => exact insertDesc_pairwise hd _ ih

/-- C9: for every stored collection, the listing pipeline (the trips route
GET followed by the sort in the fetch of the home page) produces the same
multiset of trips ordered by `createdAt` descending — every trip is
followed only by trips with a smaller-or-equal `createdAt`. -/
theorem listing_sorted_spec (resp : StoreResponse) :
    ∃ l : List TripData,
      HomePage.fetchTrips (TripsRoute.GET true (.ok resp)) = some l ∧
      List.Perm l (extractTrips resp) ∧
      l.Pairwise HomePage.descBy :=
  ⟨HomePage.sortByCreatedAtDesc (extractTrips resp), rfl,
    sortByCreatedAtDesc_perm _, sortByCreatedAtDesc_pairwise _⟩
